import Mathlib

/-!
# DjvuView: configuration, render callbacks, history navigation, bookmarks, keys

A shallow embedding of the parts of `code/src/djvu_reader/djvu_view.cpp` that keep
state of their own.  The view is glue code: it owns a handful of fields
(`read_mode_`, `cur_page_`, `restore_count_`, `layout_pages_`, `display_pages_`,
`reading_history_`) and talks to collaborators that live in other files (the page
layout, the document model, the screen proxy, Qt timers).

Modelling conventions.

* The fields of the view are the fields of the structure `DjvuView`.
* A call into a collaborator that returns nothing of interest is recorded, in
  program order, in a list of `Call`s returned by the handler.
* What a collaborator answers when asked is taken from an `Oracle`: one field per
  query the handlers make.
* `reading_history_` is a member object of a class declared elsewhere; its state
  is an abstract type `H` and its methods are the fields of `ReadingHistory`.
* Slots that the collaborators trigger through signals (`onLayoutDone`,
  `onNeedPage`, `onPageRenderReady`, ...) are separate handler invocations; a
  handler here describes the statements of its own body.
* C++ `int` arithmetic is done in `Int` and wrapped to 32 bits by `wrapInt`.
-/

namespace djvu_reader

/-! ## Machine integers -/

/-- Largest value of a C++ `int`. -/
def INT_MAX : Int := 2147483647

/-- Smallest value of a C++ `int`. -/
def INT_MIN : Int := -2147483648

/-- Two's complement wrap of an integer to the 32 bits of a C++ `int`. -/
def wrapInt (z : Int) : Int := (z + 2147483648) % 4294967296 - 2147483648

/-- The constant `static const int OVERLAP_DISTANCE = 80;`. -/
def OVERLAP_DISTANCE : Int := 80

/-! ## Qt values used by the configuration -/

/-- A `QVariant` as far as `toInt` can tell variants apart: an invalid (default
constructed) variant, a variant holding an `int`, and a variant of any other type
together with the result Qt's conversion to `int` gives for it (`none` when the
value cannot be converted). -/
inductive QVariant where
  | invalid : QVariant
  | int (n : Int) : QVariant
  | other (conv : Option Int) : QVariant
  deriving DecidableEq, Repr

/-- The call `QVariant::toInt(&ok)`: the value and the flag written to `ok`.  A value
that cannot be converted gives `0` and `false`. -/
def QVariant.toInt : QVariant → Int × Bool
  | QVariant.invalid => (0, false)
  | QVariant.int n => (n, true)
  | QVariant.other (some n) => (n, true)
  | QVariant.other none => (0, false)

/-- The options of a configuration: a `QMap` from option names to variants, kept as
an association list in which the first entry of a key is the entry of the key. -/
abbrev QVariantMap := List (String × QVariant)

/-- The entry stored under a key, if there is one. -/
def QVariantMap.value? : QVariantMap → String → Option QVariant
  | [], _ => none
  | (k, q) :: rest, key => if k = key then some q else QVariantMap.value? rest key

/-- The expression `options[key]` read as a value: the entry under the key, and the map
afterwards.  As in Qt, a key that is absent is inserted with a default constructed
(invalid) variant. -/
def QVariantMap.index (m : QVariantMap) (key : String) : QVariant × QVariantMap :=
  match QVariantMap.value? m key with
  | some q => (q, m)
  | none => (QVariant.invalid, m ++ [(key, QVariant.invalid)])

/-- The statement `options[key] = q`: the entry of the key is replaced, or added when
the key is absent. -/
def QVariantMap.assign : QVariantMap → String → QVariant → QVariantMap
  | [], key, q => [(key, q)]
  | (k, old) :: rest, key, q =>
      if k = key then (k, q) :: rest else (k, old) :: QVariantMap.assign rest key q

/-- The two members of `Configuration` the view touches: `options` and the progress
text of `info`. -/
structure Configuration where
  options : QVariantMap
  progress : String
  deriving DecidableEq, Repr

/-- Constants of the SDK headers used by the view and not defined in this file:
the option name `CONFIG_PAGE_LAYOUT` and the values of the enumerators
`PAGE_LAYOUT` and `CONTINUOUS_LAYOUT` of `PageLayoutType`. -/
structure Consts where
  CONFIG_PAGE_LAYOUT : String
  PAGE_LAYOUT : Int
  CONTINUOUS_LAYOUT : Int

/-! ## Text formatting: `QString::arg` -/

/-- Decimal value of a digit character, as `QChar::digitValue` for ASCII digits. -/
def digitValue (c : Char) : Nat := c.toNat - 48

/-- A piece of a format string: a plain character, or a place marker with its number
and the characters it was written with. -/
inductive Piece where
  | lit (c : Char) : Piece
  | marker (n : Nat) (src : List Char) : Piece
  deriving DecidableEq, Repr

/-- The place marker starting at a percent sign, given the characters after the
sign: an optional `L`, one digit, and a second digit when one follows.  The result
is the marker number and how many characters after the sign belong to it. -/
def escapeAt : List Char → Option (Nat × Nat)
  | 'L' :: d :: e :: _ =>
      if d.isDigit then
        if e.isDigit then some (10 * digitValue d + digitValue e, 3)
        else some (digitValue d, 2)
      else none
  | 'L' :: d :: [] => if d.isDigit then some (digitValue d, 2) else none
  | d :: e :: _ =>
      if d.isDigit then
        if e.isDigit then some (10 * digitValue d + digitValue e, 2)
        else some (digitValue d, 1)
      else none
  | d :: [] => if d.isDigit then some (digitValue d, 1) else none
  | [] => none

/-- Split a format string into pieces, left to right.  `skip` counts characters
that belong to the marker found last and are passed over. -/
def pieces : Nat → List Char → List Piece
  | _, [] => []
  | skip + 1, _ :: rest => pieces skip rest
  | 0, c :: rest =>
      if c = '%' then
        match escapeAt rest with
        | some (n, len) => Piece.marker n (c :: rest.take len) :: pieces len rest
        | none => Piece.lit c :: pieces 0 rest
      else Piece.lit c :: pieces 0 rest

/-- The lowest marker number among the pieces, if there is a marker. -/
def minMarker : List Piece → Option Nat
  | [] => none
  | Piece.lit _ :: rest => minMarker rest
  | Piece.marker n _ :: rest =>
      match minMarker rest with
      | some m => some (min n m)
      | none => some n

/-- Write the pieces back, the markers numbered `n` replaced by `a`. -/
def fillMarker (n : Nat) (a : List Char) : List Piece → List Char
  | [] => []
  | Piece.lit c :: rest => c :: fillMarker n a rest
  | Piece.marker m src :: rest =>
      if m = n then a ++ fillMarker n a rest else src ++ fillMarker n a rest

/-- The call `QString::arg(a)` on text: every occurrence of the lowest numbered place
marker is replaced by `a`; a string without a marker is returned as it is. -/
def QString.arg (s : String) (a : String) : String :=
  match minMarker (pieces 0 s.data) with
  | some n => String.mk (fillMarker n a.data (pieces 0 s.data))
  | none => s

/-- The call `QString::arg(int)`: the number is written in base ten. -/
def QString.argInt (s : String) (a : Int) : String := QString.arg s (toString a)

/-! ## The view and its collaborators -/

/-- The concrete class of the object `layout_` points to. -/
inductive LayoutClass where
  | ContinuousPageLayout : LayoutClass
  | SinglePageLayout : LayoutClass
  deriving DecidableEq, Repr

/-- The members of `ReadingHistoryContext` the view reads. -/
structure ReadingHistoryContext where
  read_type : Int
  page_number : Int
  deriving DecidableEq, Repr

/-- The methods of the class of `reading_history_` the view calls, over an abstract
state `H` of the history and an abstract type `Item` of its entries (`QVariant`s
in the source); `value` is `item.value<ReadingHistoryContext>()`. -/
structure ReadingHistory (H Item : Type) where
  canGoBack : H → Bool
  canGoForward : H → Bool
  back : H → H
  forward : H → H
  currentItem : H → Item
  addItem : H → Item → H
  value : Item → ReadingHistoryContext

/-- A call into a collaborator, recorded in program order.  Pages are passed by their
key; the rotation and zoom arguments of the layout constructors, the margins and
the `connect` calls are left out of the record. -/
inductive Call (Item : Type) where
  | newContinuousPageLayout : Call Item
  | newSinglePageLayout : Call Item
  | layoutSetMargins : Call Item
  | layoutSetWidgetArea (w h : Int) : Call Item
  | layoutLoadConfiguration (conf : Configuration) : Call Item
  | layoutClearPages : Call Item
  | layoutSetFirstPageNumber (n : Int) : Call Item
  | layoutSetLastPageNumber (n : Int) : Call Item
  | layoutUpdate : Call Item
  | layoutJump (page_number : Int) : Call Item
  | layoutScroll (x y : Int) : Call Item
  | layoutRestoreByReadingHistory (item : Item) : Call Item
  | modelAddBookmark (start end_ : Int) : Call Item
  | modelDeleteBookmark (start end_ : Int) : Call Item
  | update : Call Item
  | updateBookmarkTimerStart : Call Item
  | setSystemBusy (busy : Bool) : Call Item
  | setDefaultWaveformGU : Call Item
  | setDefaultWaveform (waveform : Int) : Call Item
  | screenFlush : Call Item
  | emitCurrentPageChanged (page total : Int) : Call Item
  | eventAccept : Call Item
  deriving DecidableEq, Repr

/-- What the collaborators answer during one handler invocation. -/
structure Oracle (Item : Type) where
  /-- The value of `sys::SysStatus::instance().isSystemBusy()`. -/
  isSystemBusy : Bool
  /-- The value of `layout_->getCurrentPage()`. -/
  getCurrentPage : Int
  /-- The keys of the pages `layout_->getVisiblePages` reports, in order. -/
  getVisiblePages : List Int
  /-- The item written by `layout_->writeReadingHistory(item)`, `none` when it returns false. -/
  writeReadingHistory : Option Item
  /-- The call `layout_->saveConfiguration(conf)`: the configuration afterwards and the result. -/
  layoutSaveConfiguration : Configuration → Configuration × Bool
  /-- The result of `model_->addBookmark(start, end)`. -/
  addBookmark : Int → Int → Bool
  /-- The result of `model_->deleteBookmark(start, end)`. -/
  deleteBookmark : Int → Int → Bool
  /-- The value of `model_->getPagesTotalNumber()`. -/
  getPagesTotalNumber : Int
  /-- The value of `model_->firstPageNumber()`. -/
  firstPageNumber : Int
  /-- The value of `status_mgr_.isSlideShow()`. -/
  isSlideShow : Bool
  /-- The value of `isLandscape()`. -/
  isLandscape : Bool
  /-- The value of `width()`, also `size().width()`. -/
  width : Int
  /-- The value of `height()`, also `size().height()`. -/
  height : Int

/-- The fields of `DjvuView` the handlers below read or write.  `layout_pages_` holds
the keys of the pages waiting for their render result, `display_pages_` the page
numbers of the rendered pages, `layout_` the class of the current layout object
(`none` before `initLayout`). -/
structure DjvuView (H : Type) where
  read_mode_ : Int
  cur_page_ : Int
  restore_count_ : Int
  layout_pages_ : List Int
  display_pages_ : List Int
  reading_history_ : H
  layout_ : Option LayoutClass
  current_waveform_ : Int

/-- The keys of `keyReleaseEvent` that scroll, and the two whose case is empty. -/
inductive Key where
  | Key_PageDown : Key
  | Key_Down : Key
  | Key_Right : Key
  | Key_PageUp : Key
  | Key_Up : Key
  | Key_Left : Key
  | Key_F3 : Key
  | Key_F4 : Key
  deriving DecidableEq, Repr

namespace DjvuView

variable {H Item : Type}

/-- The method `DjvuView::saveConfiguration`: write the progress text and the read mode into
the configuration and hand it to the layout.  The result is what the layout
returns and the configuration as the layout leaves it. -/
def saveConfiguration (K : Consts) (O : Oracle Item) (v : DjvuView H)
    (conf : Configuration) : Bool × Configuration :=
  let progress := "%1 / %2"
  let conf1 := { conf with
    progress := QString.argInt (QString.argInt progress (wrapInt (v.cur_page_ + 1)))
      O.getPagesTotalNumber }
  let conf2 := { conf1 with
    options := QVariantMap.assign conf1.options K.CONFIG_PAGE_LAYOUT (QVariant.int v.read_mode_) }
  let saved := O.layoutSaveConfiguration conf2
  (saved.2, saved.1)

/-- The method `DjvuView::initLayout`: create the layout object for the read mode and set it up. -/
def initLayout (K : Consts) (O : Oracle Item) (v : DjvuView H) :
    DjvuView H × List (Call Item) :=
  let made : DjvuView H × List (Call Item) :=
    if v.read_mode_ = K.CONTINUOUS_LAYOUT then
      ({ v with layout_ := some LayoutClass.ContinuousPageLayout }, [Call.newContinuousPageLayout])
    else
      ({ v with layout_ := some LayoutClass.SinglePageLayout }, [Call.newSinglePageLayout])
  (made.1, made.2 ++ [Call.layoutSetMargins, Call.layoutSetWidgetArea O.width O.height])

/-- The method `DjvuView::resetLayout`. -/
def resetLayout (O : Oracle Item) : List (Call Item) :=
  [Call.layoutClearPages,
   Call.layoutSetFirstPageNumber O.firstPageNumber,
   Call.layoutSetLastPageNumber (wrapInt (O.getPagesTotalNumber - 1)),
   Call.layoutUpdate]

/-- The method `DjvuView::loadConfiguration`: the result, the view and the configuration
afterwards.  The read mode is assigned before the conversion flag is tested. -/
def loadConfiguration (K : Consts) (v : DjvuView H) (conf : Configuration) :
    Bool × DjvuView H × Configuration :=
  if conf.options.isEmpty then (false, v, conf)
  else
    let entry := QVariantMap.index conf.options K.CONFIG_PAGE_LAYOUT
    let conf1 := { conf with options := entry.2 }
    let converted := entry.1.toInt
    let v1 := { v with read_mode_ := converted.1 }
    if !converted.2 then (false, v1, conf1) else (true, v1, conf1)

/-- The method `DjvuView::onDocReady`, on the configuration `model_->getConf()` refers to. -/
def onDocReady (K : Consts) (O : Oracle Item) (v : DjvuView H) (conf : Configuration) :
    DjvuView H × Configuration × List (Call Item) :=
  let loaded := loadConfiguration K v conf
  let v1 := if !loaded.1 then { loaded.2.1 with read_mode_ := K.PAGE_LAYOUT } else loaded.2.1
  let made := initLayout K O v1
  (made.1, loaded.2.2,
    made.2 ++ [Call.layoutLoadConfiguration loaded.2.2] ++ resetLayout O)

/-- The method `DjvuView::gotoPage`. -/
def gotoPage (page_number : Int) : List (Call Item) := [Call.layoutJump page_number]

/-- The method `DjvuView::switchLayout`. -/
def switchLayout (K : Consts) (O : Oracle Item) (v : DjvuView H) (mode : Int) :
    DjvuView H × List (Call Item) :=
  if v.read_mode_ = mode then (v, [])
  else
    let v1 := { v with read_mode_ := mode }
    let made := initLayout K O v1
    (made.1, made.2 ++ gotoPage made.1.cur_page_ ++ resetLayout O)

/-- The loop of `onPageRenderReady` over `layout_pages_`: the list without the first
page whose key is the page number, `none` when no key matches. -/
def eraseByKey (pageNum : Int) : List Int → Option (List Int)
  | [] => none
  | key :: rest =>
      if pageNum = key then some rest
      else
        match eraseByKey pageNum rest with
        | some rest1 => some (key :: rest1)
        | none => none

/-- The method `DjvuView::updateCurrentPage`. -/
def updateCurrentPage (O : Oracle Item) (v : DjvuView H) (page_number : Int) :
    DjvuView H × List (Call Item) :=
  let v1 := { v with cur_page_ := page_number }
  (v1, [Call.emitCurrentPageChanged v1.cur_page_ O.getPagesTotalNumber])

/-- The method `DjvuView::saveReadingContext`. -/
def saveReadingContext (R : ReadingHistory H Item) (O : Oracle Item) (v : DjvuView H) :
    DjvuView H :=
  match O.writeReadingHistory with
  | some item => { v with reading_history_ := R.addItem v.reading_history_ item }
  | none => v

/-- The method `DjvuView::onPageRenderReady` for a rendered page with number `pageNum`. -/
def onPageRenderReady (R : ReadingHistory H Item) (O : Oracle Item) (v : DjvuView H)
    (pageNum : Int) : DjvuView H × List (Call Item) :=
  if v.restore_count_ > 1 then
    ({ v with restore_count_ := wrapInt (v.restore_count_ - 1) }, [])
  else
    let busy : List (Call Item) := if O.isSystemBusy then [Call.setSystemBusy false] else []
    match eraseByKey pageNum v.layout_pages_ with
    | none => (v, busy)
    | some remaining =>
        let v1 := { v with layout_pages_ := remaining }
        let waveform : List (Call Item) :=
          if v1.display_pages_.length > 0 then [Call.setDefaultWaveformGU]
          else [Call.setDefaultWaveform v1.current_waveform_]
        let v2 := { v1 with display_pages_ := v1.display_pages_ ++ [pageNum] }
        let done : DjvuView H × List (Call Item) :=
          if v2.layout_pages_.isEmpty then
            let cur := updateCurrentPage O v2 O.getCurrentPage
            if cur.1.restore_count_ ≤ 0 then (saveReadingContext R O cur.1, cur.2)
            else ({ cur.1 with restore_count_ := 0 }, cur.2)
          else (v2, [])
        let rollback : List (Call Item) :=
          if done.1.layout_pages_.isEmpty then
            [Call.screenFlush, Call.setDefaultWaveform done.1.current_waveform_]
          else []
        (done.1, busy ++ waveform ++ done.2 ++ [Call.update] ++ rollback)

/-- The method `DjvuView::addBookmark`.  `front()` and `back()` are taken on a list known
to be non-empty; the default of `headD` and `getLastD` is never used. -/
def addBookmark (O : Oracle Item) : Bool × List (Call Item) :=
  let visible_pages := O.getVisiblePages
  if !visible_pages.isEmpty then
    let start := visible_pages.headD 0
    let end_ := visible_pages.getLastD 0
    if O.addBookmark start end_ then
      (true, [Call.modelAddBookmark start end_, Call.update, Call.updateBookmarkTimerStart])
    else (false, [Call.modelAddBookmark start end_])
  else (false, [])

/-- The method `DjvuView::deleteBookmark`. -/
def deleteBookmark (O : Oracle Item) : Bool × List (Call Item) :=
  let visible_pages := O.getVisiblePages
  if !visible_pages.isEmpty then
    let start := visible_pages.headD 0
    let end_ := visible_pages.getLastD 0
    if O.deleteBookmark start end_ then
      (true, [Call.modelDeleteBookmark start end_, Call.update])
    else (false, [Call.modelDeleteBookmark start end_])
  else (false, [])

/-- The shared body of `back` and `forward` after the history cursor has moved. -/
def restoreFromHistory (K : Consts) (R : ReadingHistory H Item) (O : Oracle Item)
    (v : DjvuView H) : DjvuView H × List (Call Item) :=
  let v1 := { v with restore_count_ := 1 }
  let item := R.currentItem v1.reading_history_
  let ctx := R.value item
  let switched : DjvuView H × List (Call Item) :=
    if ctx.read_type ≠ v1.read_mode_ then
      let v2 := { v1 with cur_page_ := ctx.page_number }
      let v3 := { v2 with restore_count_ := wrapInt (v2.restore_count_ + 1) }
      switchLayout K O v3 ctx.read_type
    else (v1, [])
  (switched.1, switched.2 ++ [Call.layoutRestoreByReadingHistory item])

/-- The method `DjvuView::back`. -/
def back (K : Consts) (R : ReadingHistory H Item) (O : Oracle Item) (v : DjvuView H) :
    DjvuView H × List (Call Item) :=
  if R.canGoBack v.reading_history_ then
    restoreFromHistory K R O { v with reading_history_ := R.back v.reading_history_ }
  else (v, [])

/-- The method `DjvuView::forward`. -/
def forward (K : Consts) (R : ReadingHistory H Item) (O : Oracle Item) (v : DjvuView H) :
    DjvuView H × List (Call Item) :=
  if R.canGoForward v.reading_history_ then
    restoreFromHistory K R O { v with reading_history_ := R.forward v.reading_history_ }
  else (v, [])

/-- The method `DjvuView::scroll`. -/
def scroll (O : Oracle Item) (offset_x offset_y : Int) : List (Call Item) :=
  if O.isSlideShow then []
  else
    let xy : Int × Int := if O.isLandscape then (offset_y, offset_x) else (offset_x, offset_y)
    [Call.layoutScroll xy.1 xy.2]

/-- The offset of the Down and PageDown case. -/
def offsetDown (O : Oracle Item) : Int :=
  if O.isLandscape then wrapInt (O.width - OVERLAP_DISTANCE)
  else wrapInt (O.height - OVERLAP_DISTANCE)

/-- The offset of the Right case. -/
def offsetRight (O : Oracle Item) : Int :=
  if O.isLandscape then wrapInt (O.height - OVERLAP_DISTANCE)
  else wrapInt (O.width - OVERLAP_DISTANCE)

/-- The offset of the Up and PageUp case. -/
def offsetUp (O : Oracle Item) : Int :=
  if O.isLandscape then wrapInt (-(wrapInt (O.width - OVERLAP_DISTANCE)))
  else wrapInt (-(wrapInt (O.height - OVERLAP_DISTANCE)))

/-- The offset of the Left case. -/
def offsetLeft (O : Oracle Item) : Int :=
  if O.isLandscape then wrapInt (-(wrapInt (O.height - OVERLAP_DISTANCE)))
  else wrapInt (-(wrapInt (O.width - OVERLAP_DISTANCE)))

/-- The method `DjvuView::keyReleaseEvent` on the keys of `Key`. -/
def keyReleaseEvent (O : Oracle Item) : Key → List (Call Item)
  | Key.Key_PageDown => scroll O 0 (offsetDown O) ++ [Call.eventAccept]
  | Key.Key_Down => scroll O 0 (offsetDown O) ++ [Call.eventAccept]
  | Key.Key_Right => scroll O (offsetRight O) 0 ++ [Call.eventAccept]
  | Key.Key_PageUp => scroll O 0 (offsetUp O) ++ [Call.eventAccept]
  | Key.Key_Up => scroll O 0 (offsetUp O) ++ [Call.eventAccept]
  | Key.Key_Left => scroll O (offsetLeft O) 0 ++ [Call.eventAccept]
  | Key.Key_F3 => [Call.eventAccept]
  | Key.Key_F4 => [Call.eventAccept]

end DjvuView

/-! ## Sample values

A small reading history (a list of entries and a cursor) and fixed answers of the
collaborators, used to evaluate the handlers on concrete inputs. -/

/-- Sample constants: the option name and two distinct enumerator values. -/
def sampleConsts : Consts :=
  { CONFIG_PAGE_LAYOUT := "page_layout", PAGE_LAYOUT := 0, CONTINUOUS_LAYOUT := 1 }

/-- A sample reading history: entries with a cursor, as in a browser. -/
def sampleHistory :
    ReadingHistory (List ReadingHistoryContext × Nat) ReadingHistoryContext :=
  { canGoBack := fun h => decide (0 < h.2)
    canGoForward := fun h => decide (h.2 + 1 < h.1.length)
    back := fun h => (h.1, h.2 - 1)
    forward := fun h => (h.1, h.2 + 1)
    currentItem := fun h => h.1.getD h.2 { read_type := 0, page_number := 0 }
    addItem := fun h item => (h.1.take (h.2 + 1) ++ [item], (h.1.take (h.2 + 1)).length)
    value := fun item => item }

/-- Sample answers: a portrait widget of 600 by 800 outside slide show, pages 3 and 4
visible, a layout that saves nothing of its own and bookmarks that succeed. -/
def sampleOracle : Oracle ReadingHistoryContext :=
  { isSystemBusy := false
    getCurrentPage := 3
    getVisiblePages := [3, 4]
    writeReadingHistory := some { read_type := 0, page_number := 3 }
    layoutSaveConfiguration := fun conf => (conf, true)
    addBookmark := fun _ _ => true
    deleteBookmark := fun _ _ => true
    getPagesTotalNumber := 10
    firstPageNumber := 0
    isSlideShow := false
    isLandscape := false
    width := 600
    height := 800 }

/-- A sample view in single page mode on page 3 that waits for the render result of
page 3, with a history of two entries and the cursor on the second. -/
def sampleView : DjvuView (List ReadingHistoryContext × Nat) :=
  { read_mode_ := 0
    cur_page_ := 3
    restore_count_ := 0
    layout_pages_ := [3]
    display_pages_ := []
    reading_history_ :=
      ([{ read_type := 1, page_number := 7 }, { read_type := 0, page_number := 3 }], 1)
    layout_ := some LayoutClass.SinglePageLayout
    current_waveform_ := 0 }

/-- A sample configuration without options. -/
def sampleConf : Configuration := { options := [], progress := "" }

/-! ## Lemmas on machine integers and maps -/

theorem wrapInt_of_range (z : Int) (hlo : INT_MIN ≤ z) (hhi : z ≤ INT_MAX) : wrapInt z = z := by
  unfold wrapInt
  unfold INT_MIN at hlo
  unfold INT_MAX at hhi
  omega

theorem value?_assign (m : QVariantMap) (key : String) (q : QVariant) :
    QVariantMap.value? (QVariantMap.assign m key q) key = some q := by
  induction m with
  | nil => simp [QVariantMap.assign, QVariantMap.value?]
  | cons e rest ih =>
    obtain ⟨k, old⟩ := e
    by_cases hk : k = key
    · simp [QVariantMap.assign, QVariantMap.value?, hk]
    · simp [QVariantMap.assign, QVariantMap.value?, hk, ih]

theorem isEmpty_of_value? (m : QVariantMap) (key : String) (q : QVariant)
    (h : QVariantMap.value? m key = some q) : m.isEmpty = false := by
  cases m with
  | nil => simp [QVariantMap.value?] at h
  | cons e rest => rfl

/-! ## Lemmas on `QString::arg` -/

theorem digitChar_ne_percent : ∀ k, k < 10 → Nat.digitChar k ≠ '%' := by decide

theorem toDigitsCore_ne_percent (fuel : Nat) :
    ∀ (n : Nat) (acc : List Char), (∀ c ∈ acc, c ≠ '%') →
      ∀ c ∈ Nat.toDigitsCore 10 fuel n acc, c ≠ '%' := by
  induction fuel with
  | zero =>
    intro n acc h c hc
    exact h c (by simpa [Nat.toDigitsCore] using hc)
  | succ f ih =>
    intro n acc h c hc
    have hacc : ∀ c ∈ Nat.digitChar (n % 10) :: acc, c ≠ '%' := by
      intro c hc
      rcases List.mem_cons.mp hc with rfl | hc
      · exact digitChar_ne_percent _ (Nat.mod_lt _ (by decide))
      · exact h c hc
    simp only [Nat.toDigitsCore] at hc
    split_ifs at hc
    · exact hacc c hc
    · exact ih _ _ hacc c hc

theorem natText_ne_percent (n : Nat) : ∀ c ∈ (toString n).data, c ≠ '%' := by
  intro c hc
  have hd : (toString n).data = Nat.toDigits 10 n := rfl
  rw [hd] at hc
  exact toDigitsCore_ne_percent _ _ _ (by simp) c hc

theorem intText_ne_percent (z : Int) : ∀ c ∈ (toString z).data, c ≠ '%' := by
  intro c hc
  cases z with
  | ofNat m => exact natText_ne_percent m c hc
  | negSucc m =>
    have hd : (toString (Int.negSucc m)).data = '-' :: (toString (m + 1)).data := rfl
    rw [hd] at hc
    rcases List.mem_cons.mp hc with rfl | hc
    · decide
    · exact natText_ne_percent _ c hc

theorem pieces_plain_append (t s : List Char) (h : ∀ c ∈ t, c ≠ '%') :
    pieces 0 (t ++ s) = t.map Piece.lit ++ pieces 0 s := by
  induction t with
  | nil => rfl
  | cons c rest ih =>
    have hc : c ≠ '%' := h c (List.mem_cons_self _ _)
    have hrest : ∀ d ∈ rest, d ≠ '%' := fun d hd => h d (List.mem_cons_of_mem _ hd)
    simp [pieces, hc, ih hrest]

theorem minMarker_plain_append (t : List Char) (ps : List Piece) :
    minMarker (t.map Piece.lit ++ ps) = minMarker ps := by
  induction t with
  | nil => rfl
  | cons c rest ih => simpa [minMarker] using ih

theorem fillMarker_plain_append (n : Nat) (a t : List Char) (ps : List Piece) :
    fillMarker n a (t.map Piece.lit ++ ps) = t ++ fillMarker n a ps := by
  induction t with
  | nil => rfl
  | cons c rest ih => simpa [fillMarker] using ih

/-- The first `arg` of the progress format fills the marker numbered one. -/
theorem arg_progress_first (a : String) :
    QString.arg "%1 / %2" a = String.mk (a.data ++ [' ', '/', ' ', '%', '2']) := by
  have hp : pieces 0 "%1 / %2".data =
      [Piece.marker 1 ['%', '1'], Piece.lit ' ', Piece.lit '/', Piece.lit ' ',
        Piece.marker 2 ['%', '2']] := by decide
  unfold QString.arg
  rw [hp]
  simp [minMarker, fillMarker]

/-- The second `arg` fills the marker numbered two that follows text without a
percent sign. -/
theorem arg_progress_second (t : List Char) (b : String) (h : ∀ c ∈ t, c ≠ '%') :
    QString.arg (String.mk (t ++ [' ', '/', ' ', '%', '2'])) b =
      String.mk (t ++ [' ', '/', ' '] ++ b.data) := by
  have hp : pieces 0 [' ', '/', ' ', '%', '2'] =
      [Piece.lit ' ', Piece.lit '/', Piece.lit ' ', Piece.marker 2 ['%', '2']] := by decide
  unfold QString.arg
  simp only [pieces_plain_append t _ h, hp, minMarker_plain_append, fillMarker_plain_append]
  simp [minMarker, fillMarker]

/-- The progress text of two numbers. -/
theorem argInt_progress (a b : Int) :
    QString.argInt (QString.argInt "%1 / %2" a) b = toString a ++ " / " ++ toString b := by
  unfold QString.argInt
  rw [arg_progress_first, arg_progress_second _ _ (intText_ne_percent a)]
  apply String.ext
  simp [String.data_append]

/-- The progress text of the sample view, evaluated: page 3 of 10. -/
theorem sample_progress_text :
    (DjvuView.saveConfiguration sampleConsts sampleOracle sampleView sampleConf).2.progress =
      "4 / 10" := by decide

/-! ## Lemmas on the pending pages -/

theorem eraseByKey_of_not_mem (pageNum : Int) (pages : List Int) (h : pageNum ∉ pages) :
    DjvuView.eraseByKey pageNum pages = none := by
  induction pages with
  | nil => rfl
  | cons key rest ih =>
    have hne : pageNum ≠ key := fun e => h (e ▸ List.mem_cons_self _ _)
    have hrest : pageNum ∉ rest := fun m => h (List.mem_cons_of_mem _ m)
    simp [DjvuView.eraseByKey, hne, ih hrest]

theorem eraseByKey_nil_iff (pageNum : Int) (pages : List Int) :
    DjvuView.eraseByKey pageNum pages = some [] ↔ pages = [pageNum] := by
  cases pages with
  | nil => simp [DjvuView.eraseByKey]
  | cons key rest =>
    by_cases hk : pageNum = key
    · subst hk
      simp [DjvuView.eraseByKey]
    · have hk2 : key ≠ pageNum := fun e => hk e.symm
      cases hr : DjvuView.eraseByKey pageNum rest <;> simp [DjvuView.eraseByKey, hk, hk2, hr]

theorem eraseByKey_of_mem (pageNum : Int) (pages : List Int) (h : pageNum ∈ pages) :
    ∃ remaining, DjvuView.eraseByKey pageNum pages = some remaining := by
  induction pages with
  | nil => simp at h
  | cons key rest ih =>
    by_cases hk : pageNum = key
    · exact ⟨rest, by simp [DjvuView.eraseByKey, hk]⟩
    · rcases List.mem_cons.mp h with e | m
      · exact absurd e hk
      · obtain ⟨r, hr⟩ := ih m
        exact ⟨key :: r, by simp [DjvuView.eraseByKey, hk, hr]⟩

/-- The pending pages after an accepted render result are the pages `eraseByKey` leaves. -/
theorem onPageRenderReady_layout_pages {H Item : Type} (R : ReadingHistory H Item)
    (O : Oracle Item) (v : DjvuView H) (pageNum : Int) (remaining : List Int)
    (hle : v.restore_count_ ≤ 1)
    (hr : DjvuView.eraseByKey pageNum v.layout_pages_ = some remaining) :
    (DjvuView.onPageRenderReady R O v pageNum).1.layout_pages_ = remaining := by
  have hgt : ¬ v.restore_count_ > 1 := by omega
  simp only [DjvuView.onPageRenderReady, hgt, if_false, hr, DjvuView.updateCurrentPage,
    DjvuView.saveReadingContext]
  split_ifs
  · cases O.writeReadingHistory <;> simp_all
  · simp_all
  · rfl

/-! ## Lemmas on history navigation -/

theorem wrapInt_one_add_one : wrapInt (1 + 1) = 2 := by decide

/-- What the shared body of `back` and `forward` does once the cursor has moved. -/
theorem restoreFromHistory_spec (K : Consts) {H Item : Type} (R : ReadingHistory H Item)
    (O : Oracle Item) (v : DjvuView H) :
    (DjvuView.restoreFromHistory K R O v).1.reading_history_ = v.reading_history_ ∧
    ((R.value (R.currentItem v.reading_history_)).read_type = v.read_mode_ →
      (DjvuView.restoreFromHistory K R O v).1 = { v with restore_count_ := 1 } ∧
      (DjvuView.restoreFromHistory K R O v).2 =
        [Call.layoutRestoreByReadingHistory (R.currentItem v.reading_history_)]) ∧
    ((R.value (R.currentItem v.reading_history_)).read_type ≠ v.read_mode_ →
      (DjvuView.restoreFromHistory K R O v).1.restore_count_ = 2 ∧
      (DjvuView.restoreFromHistory K R O v).1.cur_page_ =
        (R.value (R.currentItem v.reading_history_)).page_number ∧
      (DjvuView.restoreFromHistory K R O v).1.read_mode_ =
        (R.value (R.currentItem v.reading_history_)).read_type ∧
      Call.layoutJump (R.value (R.currentItem v.reading_history_)).page_number ∈
        (DjvuView.restoreFromHistory K R O v).2) ∧
    (DjvuView.restoreFromHistory K R O v).2.getLast? =
      some (Call.layoutRestoreByReadingHistory (R.currentItem v.reading_history_)) := by
  by_cases hsame : (R.value (R.currentItem v.reading_history_)).read_type = v.read_mode_
  · simp [DjvuView.restoreFromHistory, hsame]
  · have hsame2 : ¬ v.read_mode_ = (R.value (R.currentItem v.reading_history_)).read_type :=
      fun e => hsame e.symm
    simp only [DjvuView.restoreFromHistory, DjvuView.switchLayout, DjvuView.initLayout,
      DjvuView.gotoPage, DjvuView.resetLayout, ne_eq, hsame, not_false_eq_true, if_true,
      hsame2, if_false, wrapInt_one_add_one]
    split_ifs <;> simp

/-! ## Configuration -/

/-- C3. `loadConfiguration` returns true exactly when the options are not empty and the
entry under `CONFIG_PAGE_LAYOUT` converts to an integer, and then `read_mode_` is that
integer, whatever its value.  It returns false for empty options, for a missing
entry and for an entry that does not convert. -/
theorem loadConfiguration_true_iff (K : Consts) {H : Type} (v : DjvuView H)
    (conf : Configuration) :
    ((DjvuView.loadConfiguration K v conf).1 = true ↔
      conf.options ≠ [] ∧
        ∃ q, QVariantMap.value? conf.options K.CONFIG_PAGE_LAYOUT = some q ∧ q.toInt.2 = true) ∧
    (∀ q, conf.options ≠ [] →
      QVariantMap.value? conf.options K.CONFIG_PAGE_LAYOUT = some q → q.toInt.2 = true →
        (DjvuView.loadConfiguration K v conf).2.1.read_mode_ = q.toInt.1) ∧
    (conf.options = [] → (DjvuView.loadConfiguration K v conf).1 = false) ∧
    (QVariantMap.value? conf.options K.CONFIG_PAGE_LAYOUT = none →
      (DjvuView.loadConfiguration K v conf).1 = false) ∧
    (∀ q, QVariantMap.value? conf.options K.CONFIG_PAGE_LAYOUT = some q → q.toInt.2 = false →
      (DjvuView.loadConfiguration K v conf).1 = false) := by
  obtain ⟨options, progress⟩ := conf
  cases options with
  | nil => simp [DjvuView.loadConfiguration, QVariantMap.value?]
  | cons e rest =>
    cases hv : QVariantMap.value? (e :: rest) K.CONFIG_PAGE_LAYOUT with
    | none => simp [DjvuView.loadConfiguration, QVariantMap.index, hv, QVariant.toInt]
    | some q =>
      cases hq : q.toInt.2 <;>
        simp [DjvuView.loadConfiguration, QVariantMap.index, hv, hq]

/-- Witness of C3: options that hold the integer 1 under the option name load as
read mode 1. -/
theorem loadConfiguration_true_iff_witness :
    (DjvuView.loadConfiguration sampleConsts sampleView
      { options := [("page_layout", QVariant.int 1)], progress := "" }).1 = true ∧
    (DjvuView.loadConfiguration sampleConsts sampleView
      { options := [("page_layout", QVariant.int 1)], progress := "" }).2.1.read_mode_ = 1 :=
  ⟨(loadConfiguration_true_iff sampleConsts sampleView
      { options := [("page_layout", QVariant.int 1)], progress := "" }).1.mpr
      ⟨by decide, QVariant.int 1, by decide, rfl⟩,
    (loadConfiguration_true_iff sampleConsts sampleView
      { options := [("page_layout", QVariant.int 1)], progress := "" }).2.1
      (QVariant.int 1) (by decide) (by decide) rfl⟩

/-- C1. Configuration round trip: when the layout's `saveConfiguration` keeps the entry
under `CONFIG_PAGE_LAYOUT`, saving the configuration of a view and loading the result
into the same view returns true and leaves `read_mode_` as it was. -/
theorem saveConfiguration_loadConfiguration_roundtrip (K : Consts) {H Item : Type}
    (O : Oracle Item) (v : DjvuView H) (conf : Configuration)
    (hkeep : ∀ c q, QVariantMap.value? c.options K.CONFIG_PAGE_LAYOUT = some q →
      QVariantMap.value? (O.layoutSaveConfiguration c).1.options K.CONFIG_PAGE_LAYOUT = some q) :
    (DjvuView.loadConfiguration K v (DjvuView.saveConfiguration K O v conf).2).1 = true ∧
    (DjvuView.loadConfiguration K v
      (DjvuView.saveConfiguration K O v conf).2).2.1.read_mode_ = v.read_mode_ := by
  have hsaved : QVariantMap.value? (DjvuView.saveConfiguration K O v conf).2.options
      K.CONFIG_PAGE_LAYOUT = some (QVariant.int v.read_mode_) := by
    unfold DjvuView.saveConfiguration
    exact hkeep _ _ (value?_assign _ _ _)
  have hne : (DjvuView.saveConfiguration K O v conf).2.options.isEmpty = false :=
    isEmpty_of_value? _ _ _ hsaved
  simp [DjvuView.loadConfiguration, hne, QVariantMap.index, hsaved, QVariant.toInt]

/-- Witness of C1 on the sample view, whose layout saves nothing of its own. -/
theorem saveConfiguration_loadConfiguration_roundtrip_witness :
    (∀ c q, QVariantMap.value? c.options sampleConsts.CONFIG_PAGE_LAYOUT = some q →
      QVariantMap.value? (sampleOracle.layoutSaveConfiguration c).1.options
        sampleConsts.CONFIG_PAGE_LAYOUT = some q) ∧
    (DjvuView.loadConfiguration sampleConsts sampleView
      (DjvuView.saveConfiguration sampleConsts sampleOracle sampleView sampleConf).2).1 = true ∧
    (DjvuView.loadConfiguration sampleConsts sampleView
      (DjvuView.saveConfiguration sampleConsts sampleOracle sampleView
        sampleConf).2).2.1.read_mode_ = sampleView.read_mode_ :=
  ⟨fun _ _ h => h,
    saveConfiguration_loadConfiguration_roundtrip sampleConsts sampleOracle sampleView
      sampleConf (fun _ _ h => h)⟩

/-- C2. When `loadConfiguration` returns false and `PAGE_LAYOUT` and `CONTINUOUS_LAYOUT` are
different enumerators, `onDocReady` leaves `read_mode_` at `PAGE_LAYOUT`, the layout
object is a `SinglePageLayout`, and `initLayout` created a `SinglePageLayout` and no
`ContinuousPageLayout`. -/
theorem onDocReady_invalid_configuration (K : Consts) {H Item : Type} (O : Oracle Item)
    (v : DjvuView H) (conf : Configuration)
    (hdiff : K.PAGE_LAYOUT ≠ K.CONTINUOUS_LAYOUT)
    (hbad : (DjvuView.loadConfiguration K v conf).1 = false) :
    (DjvuView.onDocReady K O v conf).1.read_mode_ = K.PAGE_LAYOUT ∧
    (DjvuView.onDocReady K O v conf).1.layout_ = some LayoutClass.SinglePageLayout ∧
    Call.newSinglePageLayout ∈ (DjvuView.onDocReady K O v conf).2.2 ∧
    Call.newContinuousPageLayout ∉ (DjvuView.onDocReady K O v conf).2.2 := by
  simp [DjvuView.onDocReady, hbad, DjvuView.initLayout, hdiff, DjvuView.resetLayout]

/-- Witness of C2: the sample configuration has no options. -/
theorem onDocReady_invalid_configuration_witness :
    sampleConsts.PAGE_LAYOUT ≠ sampleConsts.CONTINUOUS_LAYOUT ∧
    (DjvuView.loadConfiguration sampleConsts sampleView sampleConf).1 = false ∧
    (DjvuView.onDocReady sampleConsts sampleOracle sampleView sampleConf).1.read_mode_ =
      sampleConsts.PAGE_LAYOUT ∧
    (DjvuView.onDocReady sampleConsts sampleOracle sampleView sampleConf).1.layout_ =
      some LayoutClass.SinglePageLayout ∧
    Call.newSinglePageLayout ∈
      (DjvuView.onDocReady sampleConsts sampleOracle sampleView sampleConf).2.2 ∧
    Call.newContinuousPageLayout ∉
      (DjvuView.onDocReady sampleConsts sampleOracle sampleView sampleConf).2.2 :=
  ⟨by decide, rfl,
    onDocReady_invalid_configuration sampleConsts sampleOracle sampleView sampleConf
      (by decide) rfl⟩

/-- C4. `saveConfiguration` hands to the layout's `saveConfiguration` the configuration whose
progress text is the one-based current page, a space, a slash, a space and the
total page count, and whose options hold `read_mode_` under `CONFIG_PAGE_LAYOUT`; it
returns exactly what the layout returns.  The current page is one for which
`cur_page_ + 1` is an `int`. -/
theorem saveConfiguration_progress_and_mode (K : Consts) {H Item : Type} (O : Oracle Item)
    (v : DjvuView H) (conf : Configuration)
    (hlo : INT_MIN ≤ v.cur_page_ + 1) (hhi : v.cur_page_ + 1 ≤ INT_MAX) :
    ∃ handed : Configuration,
      handed.progress = toString (v.cur_page_ + 1) ++ " / " ++ toString O.getPagesTotalNumber ∧
      handed.options = QVariantMap.assign conf.options K.CONFIG_PAGE_LAYOUT
        (QVariant.int v.read_mode_) ∧
      QVariantMap.value? handed.options K.CONFIG_PAGE_LAYOUT = some (QVariant.int v.read_mode_) ∧
      (DjvuView.saveConfiguration K O v conf).1 = (O.layoutSaveConfiguration handed).2 ∧
      (DjvuView.saveConfiguration K O v conf).2 = (O.layoutSaveConfiguration handed).1 := by
  refine ⟨{ progress := toString (v.cur_page_ + 1) ++ " / " ++ toString O.getPagesTotalNumber,
            options := QVariantMap.assign conf.options K.CONFIG_PAGE_LAYOUT
              (QVariant.int v.read_mode_) }, rfl, rfl, value?_assign _ _ _, ?_, ?_⟩
  · simp only [DjvuView.saveConfiguration, wrapInt_of_range _ hlo hhi, argInt_progress]
  · simp only [DjvuView.saveConfiguration, wrapInt_of_range _ hlo hhi, argInt_progress]

/-- Witness of C4 on the sample view: page 3 of 10 is handed over as `4 / 10`. -/
theorem saveConfiguration_progress_and_mode_witness :
    (INT_MIN ≤ sampleView.cur_page_ + 1 ∧ sampleView.cur_page_ + 1 ≤ INT_MAX) ∧
    ∃ handed : Configuration,
      handed.progress =
        toString (sampleView.cur_page_ + 1) ++ " / " ++ toString sampleOracle.getPagesTotalNumber ∧
      handed.options = QVariantMap.assign sampleConf.options sampleConsts.CONFIG_PAGE_LAYOUT
        (QVariant.int sampleView.read_mode_) ∧
      QVariantMap.value? handed.options sampleConsts.CONFIG_PAGE_LAYOUT =
        some (QVariant.int sampleView.read_mode_) ∧
      (DjvuView.saveConfiguration sampleConsts sampleOracle sampleView sampleConf).1 =
        (sampleOracle.layoutSaveConfiguration handed).2 ∧
      (DjvuView.saveConfiguration sampleConsts sampleOracle sampleView sampleConf).2 =
        (sampleOracle.layoutSaveConfiguration handed).1 :=
  ⟨by decide,
    saveConfiguration_progress_and_mode sampleConsts sampleOracle sampleView sampleConf
      (by decide) (by decide)⟩

/-! ## Render results -/

/-- C5. When `onPageRenderReady` accepts the last pending page, so that `layout_pages_`
becomes empty: with `restore_count_ <= 0` the view is the one `saveReadingContext` leaves
(the history gains the item of the layout when `writeReadingHistory` succeeds and is
unchanged otherwise), and with `restore_count_ == 1` the history is unchanged and
`restore_count_` is reset to 0. -/
theorem onPageRenderReady_last_page {H Item : Type} (R : ReadingHistory H Item)
    (O : Oracle Item) (v : DjvuView H) (pageNum : Int)
    (hle : v.restore_count_ ≤ 1) (hmem : pageNum ∈ v.layout_pages_)
    (hempty : (DjvuView.onPageRenderReady R O v pageNum).1.layout_pages_ = []) :
    (v.restore_count_ ≤ 0 →
      (DjvuView.onPageRenderReady R O v pageNum).1 =
        DjvuView.saveReadingContext R O
          { v with layout_pages_ := [], display_pages_ := v.display_pages_ ++ [pageNum],
                   cur_page_ := O.getCurrentPage } ∧
      (DjvuView.onPageRenderReady R O v pageNum).1.reading_history_ =
        (match O.writeReadingHistory with
          | some item => R.addItem v.reading_history_ item
          | none => v.reading_history_) ∧
      (DjvuView.onPageRenderReady R O v pageNum).1.restore_count_ = v.restore_count_) ∧
    (v.restore_count_ = 1 →
      (DjvuView.onPageRenderReady R O v pageNum).1.reading_history_ = v.reading_history_ ∧
      (DjvuView.onPageRenderReady R O v pageNum).1.restore_count_ = 0) := by
  obtain ⟨remaining, hr⟩ := eraseByKey_of_mem pageNum v.layout_pages_ hmem
  have hrem : remaining = [] := by
    rw [onPageRenderReady_layout_pages R O v pageNum remaining hle hr] at hempty
    exact hempty
  subst hrem
  have hgt : ¬ v.restore_count_ > 1 := by omega
  constructor
  · intro h0
    cases hw : O.writeReadingHistory <;>
      simp [DjvuView.onPageRenderReady, hgt, hr, DjvuView.updateCurrentPage, h0,
        DjvuView.saveReadingContext, hw]
  · intro h1
    have hpos : ¬ v.restore_count_ ≤ 0 := by omega
    simp [DjvuView.onPageRenderReady, hgt, hr, DjvuView.updateCurrentPage, hpos]

/-- Witness of C5: the sample view waits for page 3 only and no restore is under way. -/
theorem onPageRenderReady_last_page_witness :
    (sampleView.restore_count_ ≤ 1 ∧ (3 : Int) ∈ sampleView.layout_pages_ ∧
      (DjvuView.onPageRenderReady sampleHistory sampleOracle sampleView 3).1.layout_pages_ = []) ∧
    (sampleView.restore_count_ ≤ 0 →
      (DjvuView.onPageRenderReady sampleHistory sampleOracle sampleView 3).1 =
        DjvuView.saveReadingContext sampleHistory sampleOracle
          { sampleView with layout_pages_ := [],
                            display_pages_ := sampleView.display_pages_ ++ [3],
                            cur_page_ := sampleOracle.getCurrentPage } ∧
      (DjvuView.onPageRenderReady sampleHistory sampleOracle sampleView 3).1.reading_history_ =
        (match sampleOracle.writeReadingHistory with
          | some item => sampleHistory.addItem sampleView.reading_history_ item
          | none => sampleView.reading_history_) ∧
      (DjvuView.onPageRenderReady sampleHistory sampleOracle sampleView 3).1.restore_count_ =
        sampleView.restore_count_) ∧
    (sampleView.restore_count_ = 1 →
      (DjvuView.onPageRenderReady sampleHistory sampleOracle sampleView 3).1.reading_history_ =
        sampleView.reading_history_ ∧
      (DjvuView.onPageRenderReady sampleHistory sampleOracle sampleView 3).1.restore_count_ = 0) :=
  ⟨⟨by decide, by decide, rfl⟩,
    onPageRenderReady_last_page sampleHistory sampleOracle sampleView 3
      (by decide) (by decide) rfl⟩

/-- C6. A render result whose page number is the key of no pending page, received
with `restore_count_ <= 1`, leaves the view as it is (so `layout_pages_`, `display_pages_`,
`cur_page_`, `restore_count_` and the reading history are unchanged); the one call it
may make is the reset of the busy flag. -/
theorem onPageRenderReady_out_of_date {H Item : Type} (R : ReadingHistory H Item)
    (O : Oracle Item) (v : DjvuView H) (pageNum : Int)
    (hle : v.restore_count_ ≤ 1) (hnot : pageNum ∉ v.layout_pages_) :
    (DjvuView.onPageRenderReady R O v pageNum).1 = v ∧
    ∀ c ∈ (DjvuView.onPageRenderReady R O v pageNum).2, c = Call.setSystemBusy false := by
  have hgt : ¬ v.restore_count_ > 1 := by omega
  have hr := eraseByKey_of_not_mem pageNum v.layout_pages_ hnot
  constructor
  · simp [DjvuView.onPageRenderReady, hgt, hr]
  · intro c hc
    simp only [DjvuView.onPageRenderReady, hgt, if_false, hr] at hc
    split_ifs at hc <;> simp_all

/-- Witness of C6: page 9 is not awaited by the sample view. -/
theorem onPageRenderReady_out_of_date_witness :
    (sampleView.restore_count_ ≤ 1 ∧ (9 : Int) ∉ sampleView.layout_pages_) ∧
    (DjvuView.onPageRenderReady sampleHistory sampleOracle sampleView 9).1 = sampleView ∧
    ∀ c ∈ (DjvuView.onPageRenderReady sampleHistory sampleOracle sampleView 9).2,
      c = Call.setSystemBusy false :=
  ⟨⟨by decide, by decide⟩,
    onPageRenderReady_out_of_date sampleHistory sampleOracle sampleView 9
      (by decide) (by decide)⟩

/-! ## Navigation history -/

/-- C7. `back()` changes nothing when the reading history cannot go back.  Otherwise
the history is the one `reading_history_.back()` leaves; with `item` its current item,
`restore_count_` is 1 when the read type of the item equals `read_mode_` (and nothing but
the restore call is made), and 2 when it differs, in which case `cur_page_` is the page
number of the item, `read_mode_` is its read type and the new layout is asked to jump
to that page; the last call restores the layout from the item.  The same holds for
`forward()` with `canGoForward` and `forward`. -/
theorem back_forward_spec (K : Consts) {H Item : Type} (R : ReadingHistory H Item)
    (O : Oracle Item) (v : DjvuView H) :
    (R.canGoBack v.reading_history_ = false → DjvuView.back K R O v = (v, [])) ∧
    (R.canGoBack v.reading_history_ = true →
      (DjvuView.back K R O v).1.reading_history_ = R.back v.reading_history_ ∧
      ((R.value (R.currentItem (R.back v.reading_history_))).read_type = v.read_mode_ →
        (DjvuView.back K R O v).1.restore_count_ = 1 ∧
        (DjvuView.back K R O v).1.cur_page_ = v.cur_page_ ∧
        (DjvuView.back K R O v).1.read_mode_ = v.read_mode_ ∧
        (DjvuView.back K R O v).2 =
          [Call.layoutRestoreByReadingHistory (R.currentItem (R.back v.reading_history_))]) ∧
      ((R.value (R.currentItem (R.back v.reading_history_))).read_type ≠ v.read_mode_ →
        (DjvuView.back K R O v).1.restore_count_ = 2 ∧
        (DjvuView.back K R O v).1.cur_page_ =
          (R.value (R.currentItem (R.back v.reading_history_))).page_number ∧
        (DjvuView.back K R O v).1.read_mode_ =
          (R.value (R.currentItem (R.back v.reading_history_))).read_type ∧
        Call.layoutJump (R.value (R.currentItem (R.back v.reading_history_))).page_number ∈
          (DjvuView.back K R O v).2) ∧
      (DjvuView.back K R O v).2.getLast? =
        some (Call.layoutRestoreByReadingHistory (R.currentItem (R.back v.reading_history_)))) ∧
    (R.canGoForward v.reading_history_ = false → DjvuView.forward K R O v = (v, [])) ∧
    (R.canGoForward v.reading_history_ = true →
      (DjvuView.forward K R O v).1.reading_history_ = R.forward v.reading_history_ ∧
      ((R.value (R.currentItem (R.forward v.reading_history_))).read_type = v.read_mode_ →
        (DjvuView.forward K R O v).1.restore_count_ = 1 ∧
        (DjvuView.forward K R O v).1.cur_page_ = v.cur_page_ ∧
        (DjvuView.forward K R O v).1.read_mode_ = v.read_mode_ ∧
        (DjvuView.forward K R O v).2 =
          [Call.layoutRestoreByReadingHistory (R.currentItem (R.forward v.reading_history_))]) ∧
      ((R.value (R.currentItem (R.forward v.reading_history_))).read_type ≠ v.read_mode_ →
        (DjvuView.forward K R O v).1.restore_count_ = 2 ∧
        (DjvuView.forward K R O v).1.cur_page_ =
          (R.value (R.currentItem (R.forward v.reading_history_))).page_number ∧
        (DjvuView.forward K R O v).1.read_mode_ =
          (R.value (R.currentItem (R.forward v.reading_history_))).read_type ∧
        Call.layoutJump (R.value (R.currentItem (R.forward v.reading_history_))).page_number ∈
          (DjvuView.forward K R O v).2) ∧
      (DjvuView.forward K R O v).2.getLast? =
        some (Call.layoutRestoreByReadingHistory
          (R.currentItem (R.forward v.reading_history_)))) := by
  refine ⟨?_, ?_, ?_, ?_⟩
  · intro hno
    simp [DjvuView.back, hno]
  · intro hcan
    have hspec := restoreFromHistory_spec K R O
      { v with reading_history_ := R.back v.reading_history_ }
    simp only [DjvuView.back, hcan, if_true]
    obtain ⟨h1, h2, h3, h4⟩ := hspec
    refine ⟨h1, ?_, h3, h4⟩
    intro hsame
    obtain ⟨hv, hcalls⟩ := h2 hsame
    rw [hv]
    exact ⟨rfl, rfl, rfl, hcalls⟩
  · intro hno
    simp [DjvuView.forward, hno]
  · intro hcan
    have hspec := restoreFromHistory_spec K R O
      { v with reading_history_ := R.forward v.reading_history_ }
    simp only [DjvuView.forward, hcan, if_true]
    obtain ⟨h1, h2, h3, h4⟩ := hspec
    refine ⟨h1, ?_, h3, h4⟩
    intro hsame
    obtain ⟨hv, hcalls⟩ := h2 hsame
    rw [hv]
    exact ⟨rfl, rfl, rfl, hcalls⟩

/-- Witness of C7: the sample history can go back to an entry of the other read type
on page 7, and cannot go forward. -/
theorem back_forward_spec_witness :
    ((DjvuView.back sampleConsts sampleHistory sampleOracle sampleView).1.restore_count_ = 2 ∧
      (DjvuView.back sampleConsts sampleHistory sampleOracle sampleView).1.cur_page_ = 7 ∧
      (DjvuView.back sampleConsts sampleHistory sampleOracle sampleView).1.read_mode_ = 1 ∧
      Call.layoutJump 7 ∈ (DjvuView.back sampleConsts sampleHistory sampleOracle sampleView).2) ∧
    DjvuView.forward sampleConsts sampleHistory sampleOracle sampleView = (sampleView, []) :=
  ⟨((back_forward_spec sampleConsts sampleHistory sampleOracle sampleView).2.1 rfl).2.2.1
      (by decide),
    (back_forward_spec sampleConsts sampleHistory sampleOracle sampleView).2.2.1 rfl⟩

/-! ## Bookmarks -/

/-- C8. `addBookmark` returns true exactly when a page is visible and the model's
`addBookmark` succeeds on the key of the first visible page and the key of the last;
the model is called with no other range; with no visible page it returns false
and calls nothing; the bookmark timer is started exactly when it returns true.
`deleteBookmark` returns true exactly when a page is visible and the model's
`deleteBookmark` succeeds on the same range. -/
theorem addBookmark_deleteBookmark_spec {Item : Type} (O : Oracle Item) :
    ((DjvuView.addBookmark O).1 = true ↔
      ∃ start end_, O.getVisiblePages.head? = some start ∧
        O.getVisiblePages.getLast? = some end_ ∧ O.addBookmark start end_ = true) ∧
    (∀ start end_, Call.modelAddBookmark start end_ ∈ (DjvuView.addBookmark O).2 →
      O.getVisiblePages.head? = some start ∧ O.getVisiblePages.getLast? = some end_) ∧
    (O.getVisiblePages = [] → DjvuView.addBookmark O = (false, [])) ∧
    (Call.updateBookmarkTimerStart ∈ (DjvuView.addBookmark O).2 ↔
      (DjvuView.addBookmark O).1 = true) ∧
    ((DjvuView.deleteBookmark O).1 = true ↔
      ∃ start end_, O.getVisiblePages.head? = some start ∧
        O.getVisiblePages.getLast? = some end_ ∧ O.deleteBookmark start end_ = true) ∧
    (∀ start end_, Call.modelDeleteBookmark start end_ ∈ (DjvuView.deleteBookmark O).2 →
      O.getVisiblePages.head? = some start ∧ O.getVisiblePages.getLast? = some end_) ∧
    (O.getVisiblePages = [] → DjvuView.deleteBookmark O = (false, [])) := by
  cases hv : O.getVisiblePages with
  | nil => simp [DjvuView.addBookmark, DjvuView.deleteBookmark, hv]
  | cons first rest =>
    obtain ⟨last, hlastD, hlast⟩ : ∃ last, (first :: rest).getLastD 0 = last ∧
        (first :: rest).getLast? = some last :=
      ⟨(first :: rest).getLastD 0, rfl, by simp [List.getLast?_cons]⟩
    have hadd : DjvuView.addBookmark O =
        if O.addBookmark first last then
          (true, [Call.modelAddBookmark first last, Call.update, Call.updateBookmarkTimerStart])
        else (false, [Call.modelAddBookmark first last]) := by
      simp only [DjvuView.addBookmark, hv, hlastD, List.isEmpty_cons, Bool.not_false, if_true,
        List.headD_cons]
    have hdel : DjvuView.deleteBookmark O =
        if O.deleteBookmark first last then
          (true, [Call.modelDeleteBookmark first last, Call.update])
        else (false, [Call.modelDeleteBookmark first last]) := by
      simp only [DjvuView.deleteBookmark, hv, hlastD, List.isEmpty_cons, Bool.not_false, if_true,
        List.headD_cons]
    rw [hadd, hdel, hlast]
    cases ha : O.addBookmark first last <;> cases hd : O.deleteBookmark first last <;>
      simp [ha, hd]

/-- Witness of C8: with pages 3 and 4 visible and a model that accepts, both calls
return true. -/
theorem addBookmark_deleteBookmark_spec_witness :
    (DjvuView.addBookmark sampleOracle).1 = true ∧
    (DjvuView.deleteBookmark sampleOracle).1 = true :=
  ⟨(addBookmark_deleteBookmark_spec sampleOracle).1.mpr ⟨3, 4, rfl, rfl, rfl⟩,
    (addBookmark_deleteBookmark_spec sampleOracle).2.2.2.2.1.mpr ⟨3, 4, rfl, rfl, rfl⟩⟩

/-! ## Keys -/

/-- C9. Outside slide show, for a widget of width `w` and height `h` on which the
subtraction of the overlap and its negation are `int`s: in portrait Down and PageDown
scroll the layout by `(0, h - 80)`, Right by `(w - 80, 0)`, Up and PageUp by
`(0, -(h - 80))` and Left by `(-(w - 80), 0)`; in landscape Down and PageDown scroll by
`(w - 80, 0)`, Right by `(0, h - 80)`, Up and PageUp by `(-(w - 80), 0)` and Left by
`(0, -(h - 80))`. -/
theorem keyReleaseEvent_scroll {Item : Type} (O : Oracle Item)
    (hslide : O.isSlideShow = false)
    (hwlo : INT_MIN + OVERLAP_DISTANCE < O.width) (hwhi : O.width ≤ INT_MAX)
    (hhlo : INT_MIN + OVERLAP_DISTANCE < O.height) (hhhi : O.height ≤ INT_MAX) :
    (O.isLandscape = false →
      DjvuView.keyReleaseEvent O Key.Key_Down =
        [Call.layoutScroll 0 (O.height - 80), Call.eventAccept] ∧
      DjvuView.keyReleaseEvent O Key.Key_PageDown =
        [Call.layoutScroll 0 (O.height - 80), Call.eventAccept] ∧
      DjvuView.keyReleaseEvent O Key.Key_Right =
        [Call.layoutScroll (O.width - 80) 0, Call.eventAccept] ∧
      DjvuView.keyReleaseEvent O Key.Key_Up =
        [Call.layoutScroll 0 (-(O.height - 80)), Call.eventAccept] ∧
      DjvuView.keyReleaseEvent O Key.Key_PageUp =
        [Call.layoutScroll 0 (-(O.height - 80)), Call.eventAccept] ∧
      DjvuView.keyReleaseEvent O Key.Key_Left =
        [Call.layoutScroll (-(O.width - 80)) 0, Call.eventAccept]) ∧
    (O.isLandscape = true →
      DjvuView.keyReleaseEvent O Key.Key_Down =
        [Call.layoutScroll (O.width - 80) 0, Call.eventAccept] ∧
      DjvuView.keyReleaseEvent O Key.Key_PageDown =
        [Call.layoutScroll (O.width - 80) 0, Call.eventAccept] ∧
      DjvuView.keyReleaseEvent O Key.Key_Right =
        [Call.layoutScroll 0 (O.height - 80), Call.eventAccept] ∧
      DjvuView.keyReleaseEvent O Key.Key_Up =
        [Call.layoutScroll (-(O.width - 80)) 0, Call.eventAccept] ∧
      DjvuView.keyReleaseEvent O Key.Key_PageUp =
        [Call.layoutScroll (-(O.width - 80)) 0, Call.eventAccept] ∧
      DjvuView.keyReleaseEvent O Key.Key_Left =
        [Call.layoutScroll 0 (-(O.height - 80)), Call.eventAccept]) := by
  unfold INT_MIN OVERLAP_DISTANCE at hwlo hhlo
  unfold INT_MAX at hwhi hhhi
  have hw : wrapInt (O.width - 80) = O.width - 80 :=
    wrapInt_of_range _ (by unfold INT_MIN; omega) (by unfold INT_MAX; omega)
  have hh : wrapInt (O.height - 80) = O.height - 80 :=
    wrapInt_of_range _ (by unfold INT_MIN; omega) (by unfold INT_MAX; omega)
  have hwn : wrapInt (-(O.width - 80)) = -(O.width - 80) :=
    wrapInt_of_range _ (by unfold INT_MIN; omega) (by unfold INT_MAX; omega)
  have hhn : wrapInt (-(O.height - 80)) = -(O.height - 80) :=
    wrapInt_of_range _ (by unfold INT_MIN; omega) (by unfold INT_MAX; omega)
  constructor <;> intro hland <;>
    simp only [DjvuView.keyReleaseEvent, DjvuView.scroll, DjvuView.offsetDown,
      DjvuView.offsetRight, DjvuView.offsetUp, DjvuView.offsetLeft, OVERLAP_DISTANCE,
      hslide, hland, hw, hh, hwn, hhn, if_true, if_false, Bool.false_eq_true,
      List.cons_append, List.nil_append, and_self]

/-- Witness of C9 on the sample widget of 600 by 800 in portrait. -/
theorem keyReleaseEvent_scroll_witness :
    (sampleOracle.isSlideShow = false ∧
      INT_MIN + OVERLAP_DISTANCE < sampleOracle.width ∧ sampleOracle.width ≤ INT_MAX ∧
      INT_MIN + OVERLAP_DISTANCE < sampleOracle.height ∧ sampleOracle.height ≤ INT_MAX) ∧
    DjvuView.keyReleaseEvent sampleOracle Key.Key_Down =
      [Call.layoutScroll 0 (sampleOracle.height - 80), Call.eventAccept] :=
  ⟨⟨rfl, by decide, by decide, by decide, by decide⟩,
    ((keyReleaseEvent_scroll sampleOracle rfl (by decide) (by decide) (by decide)
      (by decide)).1 rfl).1⟩

end djvu_reader
